import Mathlib

/-!
Verification of the gameplay simulation core of `src/mia-croft/game.js`
(class `MiaCroftGame`).

Embedding conventions:
* JS numbers are embedded as rationals (`ℚ`); all numeric literals in the
  simulation core are exact decimal constants, so no precision is lost.
* `a.distanceTo(b) < r` (THREE.Vector3 Euclidean distance, used with the
  positive thresholds 1, 1.5, 3, 8) is embedded as the exact equivalent
  squared comparison `distSq a b < r * r`.
* DOM / rendering side effects (`updateHUD`, `showPrompt`, screen flash,
  muzzle flash, mesh construction, shockwave visuals) do not touch the
  simulation state and are dropped.
* Aim directions obtained by `applyAxisAngle` of camera angles (sin/cos of
  arbitrary angles, irrational in general) are taken as parameters of the
  spawning functions; no settled claim depends on their values.
* `setTimeout(f, 2000)` is embedded as appending a one-shot timer
  (fire time `now + 2` seconds) to a pending-timer list; firing a timer
  removes it and runs its action.  The purely visual timeouts
  (prompt hide, muzzle flash removal, level intro) have no simulation
  effect and are not modeled.
-/

namespace MiaCroft

/-- 3D vector with rational coordinates; embeds `THREE.Vector3` as used by
the simulation core. -/
structure Vec3 where
  x : ℚ
  y : ℚ
  z : ℚ
deriving DecidableEq

/-- Componentwise addition, embeds `Vector3.add`. -/
def Vec3.add (a b : Vec3) : Vec3 := ⟨a.x + b.x, a.y + b.y, a.z + b.z⟩

/-- Scalar multiple, embeds `Vector3.multiplyScalar`. -/
def Vec3.scale (k : ℚ) (a : Vec3) : Vec3 := ⟨k * a.x, k * a.y, k * a.z⟩

/-- Squared Euclidean distance between two points. -/
def Vec3.distSq (a b : Vec3) : ℚ :=
  (a.x - b.x) * (a.x - b.x) + (a.y - b.y) * (a.y - b.y) + (a.z - b.z) * (a.z - b.z)

/-- Embedding of `a.distanceTo(b) < r` for a nonnegative threshold `r`:
exact squared comparison, equivalent to the source's comparison of the
real square root against `r`. -/
def distLt (a b : Vec3) (r : ℚ) : Bool := decide (Vec3.distSq a b < r * r)

/-- The `GameState` enumeration of `game.js` (lines 7-15). -/
inductive GState where
  | menu
  | playing
  | paused
  | puzzle
  | levelTransition
  | gameOver
  | victory
deriving DecidableEq

/-- The only item kind ever stored in the inventory is the crystal key
(`{ type: 'key', icon: 'K' }`). -/
inductive ItemType where
  | key
deriving DecidableEq

/-- Collectible kinds, the `type` tag set by `createCollectible`. -/
inductive CollectibleType where
  | health
  | ammo
  | key
deriving DecidableEq

/-- A collectible: position plus its `userData.type` tag. -/
structure Collectible where
  pos : Vec3
  ctype : CollectibleType
deriving DecidableEq

/-- Enemy variants (`userData.type`). -/
inductive EnemyType where
  | wolf
  | spirit
deriving DecidableEq

/-- An enemy, with the `userData` fields set by `createSnowWolf` /
`createIceSpirit`.  The behaviour timestamps `lastAttack` / `lastShot` are
read only by `updateEnemies`, which none of the settled claims touch, and
are omitted. -/
structure Enemy where
  pos : Vec3
  health : ℚ
  maxHealth : ℚ
  speed : ℚ
  damage : ℚ
  attackRange : ℚ
  aggroRange : ℚ
  etype : EnemyType
deriving DecidableEq

/-- A projectile, with the `userData` fields set by `shoot`, `enemyShoot`
and `bossIceAttack`. -/
structure Projectile where
  pos : Vec3
  vel : Vec3
  isPlayerProjectile : Bool
  isEnemyProjectile : Bool
  damage : ℚ
  lifetime : ℚ
  spawnTime : ℚ
deriving DecidableEq

/-- Platform variants, as distinguished by `checkPlatformCollision`:
the implicit ground plane (`userData.isGround`), the circular boss arena
(`userData.isArena`), and axis-aligned boxes carrying `userData.bounds`
(`width`, `height`, `depth`) and a center position. -/
inductive Platform where
  | ground
  | arena
  | box (pos : Vec3) (width height depth : ℚ)
deriving DecidableEq

/-- The action of a scheduled one-shot `setTimeout` callback that touches
simulation state.  The only such callback in the core is
`() => this.nextLevel()` scheduled by `openGateAnimation` (line 775). -/
inductive TimerAction where
  | advanceLevel
deriving DecidableEq

/-- A pending one-shot timer: fire time (seconds of elapsed clock time)
and its action. -/
structure Timer where
  fireAt : ℚ
  action : TimerAction
deriving DecidableEq

/-- The simulation state owned by `MiaCroftGame`: every mutable field of
the class that the gameplay core (as opposed to rendering, input capture
or the HUD) reads or writes. -/
structure Game where
  state : GState
  currentLevel : ℕ
  health : ℚ
  maxHealth : ℚ
  ammo : ℚ
  maxAmmo : ℚ
  inventory : List (Option ItemType)
  puzzleSolved : Bool
  gateOpen : Bool
  exitGate : Option Vec3
  playerPos : Vec3
  playerVel : Vec3
  playerOnGround : Bool
  platforms : List Platform
  collectibles : List Collectible
  enemies : List Enemy
  boss : Option Vec3
  bossHealth : ℚ
  bossMaxHealth : ℚ
  projectiles : List Projectile
  lastShootTime : ℚ
  shootCooldown : ℚ
  pendingTimers : List Timer
deriving DecidableEq

/-- `this.maxLevels` (constructor, line 22): constant 3. -/
def maxLevels : ℕ := 3

/-- Embeds `takeDamage(amount)` (lines 1500-1513): decrement health (no
lower clamp), then enter `GAME_OVER` if health is 0 or below.  The screen
flash and HUD update are presentation only. -/
def takeDamage (amount : ℚ) (s : Game) : Game :=
  let s1 := { s with health := s.health - amount }
  if s1.health ≤ 0 then { s1 with state := GState.gameOver } else s1

/-- Embeds `victory()` (lines 1525-1533): enter the terminal VICTORY
state (the rest is DOM). -/
def victoryState (s : Game) : Game := { s with state := GState.victory }

/-- Embeds the key branch of `collectItem` (lines 1480-1487): put a key
in the first free inventory slot; if no slot is free the item is silently
dropped. -/
def addKeyToInventory : List (Option ItemType) → List (Option ItemType)
  | [] => []
  | none :: rest => some ItemType.key :: rest
  | some it :: rest => some it :: addKeyToInventory rest

/-- Embeds `collectItem(collectible)` (lines 1470-1498): apply the
type-specific effect (heal capped at `maxHealth`, ammo capped at
`maxAmmo`, or inventory insert), then remove the collectible from the
registry (`indexOf` + `splice` removes the first occurrence). -/
def collectItem (c : Collectible) (s : Game) : Game :=
  let s1 :=
    match c.ctype with
    | CollectibleType.health => { s with health := min (s.health + 25) s.maxHealth }
    | CollectibleType.ammo => { s with ammo := min (s.ammo + 10) s.maxAmmo }
    | CollectibleType.key => { s with inventory := addKeyToInventory s.inventory }
  { s1 with collectibles := s1.collectibles.erase c }

/-- Embeds `this.inventory.some(item => item && item.type === 'key')`
(line 741). -/
def hasKeyInv (inv : List (Option ItemType)) : Bool :=
  inv.any fun item =>
    match item with
    | some ItemType.key => true
    | _ => false

/-- Embeds lines 746-747 of `tryOpenGate`: `findIndex` of the first key
slot, which is then set to `null`. -/
def removeFirstKey : List (Option ItemType) → List (Option ItemType)
  | [] => []
  | some ItemType.key :: rest => none :: rest
  | it :: rest => it :: removeFirstKey rest

/-- Embeds `openGateAnimation()` (lines 762-777): when an exit gate
exists, schedule the one-shot `setTimeout(() => this.nextLevel(), 2000)`
to fire 2 seconds from now.  The gate color change and the
`requestAnimationFrame` slide of the gate mesh are presentation only. -/
def openGateAnimation (now : ℚ) (s : Game) : Game :=
  match s.exitGate with
  | some _ => { s with pendingTimers := s.pendingTimers ++ [⟨now + 2, TimerAction.advanceLevel⟩] }
  | none => s

/-- Embeds `tryOpenGate()` (lines 738-760).  Level 1: needs a key in the
inventory, on success opens the gate, runs the gate animation and nulls
the first key slot.  Level 2: needs `puzzleSolved`.  Any other level: no
branch matches, nothing happens.  The failure prompts are DOM only. -/
def tryOpenGate (now : ℚ) (s : Game) : Game :=
  if s.currentLevel = 1 then
    if hasKeyInv s.inventory then
      let s1 := openGateAnimation now { s with gateOpen := true }
      { s1 with inventory := removeFirstKey s1.inventory }
    else s
  else if s.currentLevel = 2 then
    if s.puzzleSolved then openGateAnimation now { s with gateOpen := true }
    else s
  else s

/-- Embeds `clearLevel()` (lines 435-468): empty all entity registries,
remove the boss and the exit gate reference.  Pending `setTimeout`
callbacks are NOT cancelled (there is no such code). -/
def clearLevel (s : Game) : Game :=
  { s with platforms := [], collectibles := [], enemies := [],
           projectiles := [], boss := none, exitGate := none }

/-- Wolf `userData` constants from `createSnowWolf` (health 30, speed 4,
damage 10, attackRange 2, aggroRange 15). -/
def mkWolf (p : Vec3) : Enemy :=
  { pos := p, health := 30, maxHealth := 30, speed := 4, damage := 10,
    attackRange := 2, aggroRange := 15, etype := EnemyType.wolf }

/-- Spirit `userData` constants from `createIceSpirit` (health 20,
speed 3, damage 15, attackRange 8, aggroRange 20). -/
def mkSpirit (p : Vec3) : Enemy :=
  { pos := p, health := 20, maxHealth := 20, speed := 3, damage := 15,
    attackRange := 8, aggroRange := 20, etype := EnemyType.spirit }

/-- Platform registration per level, in source order: `createSnowGround`
pushes the ground first on every level; then `createLevel1` registers 4
ice platforms plus the 3 key-area platforms, `createLevel2` registers the
temple base then 3 ice platforms, `createLevel3` registers the circular
arena.  (`createBossArena` additionally registers 4 cover platforms at
positions `12·cos/sin(kπ/2 + π/4)`, irrational coordinates outside this
rational-coordinate embedding; no settled claim depends on them, and all
claims about platforms quantify over arbitrary platform lists.) -/
def levelPlatforms (n : ℕ) : List Platform :=
  Platform.ground ::
    (if n = 1 then
      [Platform.box ⟨5, 3/2, -10⟩ 4 (1/2) 4,
       Platform.box ⟨12, 3, -15⟩ 4 (1/2) 4,
       Platform.box ⟨18, 9/2, -10⟩ 4 (1/2) 4,
       Platform.box ⟨25, 6, -15⟩ 5 (1/2) 5,
       Platform.box ⟨-10, 2, 5⟩ 3 (1/2) 3,
       Platform.box ⟨-18, 7/2, 8⟩ 3 (1/2) 3,
       Platform.box ⟨-25, 5, 5⟩ 4 (1/2) 4]
    else if n = 2 then
      [Platform.box ⟨0, 7/2, -30⟩ 20 1 30,
       Platform.box ⟨0, 1, -8⟩ 6 (1/2) 6,
       Platform.box ⟨8, 5/2, -15⟩ 5 (1/2) 5,
       Platform.box ⟨0, 4, -25⟩ 8 (1/2) 8]
    else if n = 3 then [Platform.arena]
    else [])

/-- Collectible placement per level, in source order. -/
def levelCollectibles (n : ℕ) : List Collectible :=
  if n = 1 then
    [⟨⟨5, 3, -10⟩, CollectibleType.ammo⟩,
     ⟨⟨12, 9/2, -15⟩, CollectibleType.health⟩,
     ⟨⟨18, 6, -10⟩, CollectibleType.ammo⟩,
     ⟨⟨-25, 13/2, 5⟩, CollectibleType.key⟩]
  else if n = 2 then
    [⟨⟨0, 5/2, -8⟩, CollectibleType.ammo⟩,
     ⟨⟨8, 4, -15⟩, CollectibleType.health⟩]
  else if n = 3 then
    [⟨⟨-15, 3/2, 0⟩, CollectibleType.health⟩,
     ⟨⟨15, 3/2, 0⟩, CollectibleType.health⟩,
     ⟨⟨-10, 3/2, 15⟩, CollectibleType.ammo⟩,
     ⟨⟨10, 3/2, 15⟩, CollectibleType.ammo⟩,
     ⟨⟨0, 3/2, -15⟩, CollectibleType.ammo⟩]
  else []

/-- Enemy placement per level, in source order (level 1: the key-area
wolf is created at line 640 before the two wolves of lines 617-618). -/
def levelEnemies (n : ℕ) : List Enemy :=
  if n = 1 then [mkWolf ⟨-22, 1, 8⟩, mkWolf ⟨-8, 1, -5⟩, mkWolf ⟨10, 1, 5⟩]
  else if n = 2 then [mkSpirit ⟨-10, 2, -20⟩, mkSpirit ⟨15, 2, -30⟩]
  else []

/-- Exit gate position per level: `createExitGate(x, y, z)` places the
gate door mesh at `(x, y + 2.5, z)`; level 1 calls it with (35, 0, -15),
level 2 with (0, 4, -40), level 3 has no exit gate. -/
def levelExitGate (n : ℕ) : Option Vec3 :=
  if n = 1 then some ⟨35, 5/2, -15⟩
  else if n = 2 then some ⟨0, 13/2, -40⟩
  else none

/-- Player start position per level (`this.player.position.set`, lines
594, 784, 976); `createPlayer` itself leaves the group at the origin. -/
def levelPlayerStart (n : ℕ) : Vec3 :=
  if n = 1 then ⟨0, 1, 0⟩
  else if n = 2 then ⟨0, 1, 0⟩
  else if n = 3 then ⟨0, 1, 30⟩
  else ⟨0, 0, 0⟩

/-- Embeds `loadLevel(levelNum)` (lines 402-433): clear the previous
level, reset `puzzleSolved` and `gateOpen`, then build the level content
(ground, player, platforms, collectibles, enemies, boss, exit gate).
Level 3 (`createBoss`) places the boss at (0, 1, -10) and resets
`bossHealth` to `bossMaxHealth`.  Intro screen, snowfall, mountains and
trees are presentation only. -/
def loadLevel (n : ℕ) (s : Game) : Game :=
  let s1 := clearLevel s
  { s1 with
    puzzleSolved := false,
    gateOpen := false,
    platforms := levelPlatforms n,
    collectibles := levelCollectibles n,
    enemies := levelEnemies n,
    boss := if n = 3 then some ⟨0, 1, -10⟩ else none,
    bossHealth := if n = 3 then s1.bossMaxHealth else s1.bossHealth,
    exitGate := levelExitGate n,
    playerPos := levelPlayerStart n }

/-- Embeds `nextLevel()` (lines 1535-1544): increment the level; past
`maxLevels` enter VICTORY, otherwise load the new level. -/
def nextLevel (s : Game) : Game :=
  let s1 := { s with currentLevel := s.currentLevel + 1 }
  if s1.currentLevel > maxLevels then victoryState s1
  else loadLevel s1.currentLevel s1

/-- Embeds `checkLevelCompletion()` (lines 2030-2040): with an existing,
open exit gate and the player within distance 3 of it, advance to the
next level. -/
def checkLevelCompletion (s : Game) : Game :=
  match s.exitGate with
  | none => s
  | some g =>
    if s.gateOpen then
      if distLt s.playerPos g 3 then nextLevel s else s
    else s

/-- Run a due timer action.  The only state-touching scheduled callback
is `() => this.nextLevel()` from `openGateAnimation`; it runs with no
guard of any kind (no level-generation token is captured). -/
def runTimerAction : TimerAction → Game → Game
  | TimerAction.advanceLevel, s => nextLevel s

/-- Fire a pending one-shot timer: remove it from the pending list and
run its action against whatever the current state is. -/
def fireTimer (t : Timer) (s : Game) : Game :=
  runTimerAction t.action { s with pendingTimers := s.pendingTimers.erase t }

/-- Embeds `shoot()` (lines 1402-1435): blocked (with no state change)
while `now - lastShootTime < shootCooldown` or when out of ammo;
otherwise records the shot time, decrements ammo and appends a player
projectile (spawn at the player position raised by 1.5, speed 50,
damage 10, lifetime 2).  `dir` is the camera-pitch/yaw aim direction. -/
def shoot (now : ℚ) (dir : Vec3) (s : Game) : Game :=
  if now - s.lastShootTime < s.shootCooldown then s
  else if s.ammo ≤ 0 then s
  else
    { s with
      lastShootTime := now,
      ammo := s.ammo - 1,
      projectiles := s.projectiles ++
        [{ pos := ⟨s.playerPos.x, s.playerPos.y + 3/2, s.playerPos.z⟩,
           vel := Vec3.scale 50 dir,
           isPlayerProjectile := true, isEnemyProjectile := false,
           damage := 10, lifetime := 2, spawnTime := now }] }

/-- Embeds `enemyShoot(enemy, direction)` (lines 1783-1799): append an
enemy projectile (spawn at the enemy position raised by 1.5, speed 20,
the enemy's damage, lifetime 3). -/
def enemyShoot (now : ℚ) (e : Enemy) (dir : Vec3) (s : Game) : Game :=
  { s with
    projectiles := s.projectiles ++
      [{ pos := ⟨e.pos.x, e.pos.y + 3/2, e.pos.z⟩,
         vel := Vec3.scale 20 dir,
         isPlayerProjectile := false, isEnemyProjectile := true,
         damage := e.damage, lifetime := 3, spawnTime := now }] }

/-- Embeds `bossIceAttack(direction)` (lines 1899-1922): append one
enemy projectile per shard (spawn at the boss position raised by 5,
speed 25, damage 15, lifetime 3).  The source fires three shards whose
directions are the aim direction yawed by -0.2, 0 and +0.2 radians
(irrational rotations); the rotated directions are passed in as the
list `dirs`. -/
def bossIceAttack (now : ℚ) (bpos : Vec3) (dirs : List Vec3) (s : Game) : Game :=
  { s with
    projectiles := s.projectiles ++
      dirs.map fun d =>
        { pos := ⟨bpos.x, bpos.y + 5, bpos.z⟩,
          vel := Vec3.scale 25 d,
          isPlayerProjectile := false, isEnemyProjectile := true,
          damage := 15, lifetime := 3, spawnTime := now } }

/-- Embeds `bossGroundSlam()` (lines 1861-1897): damage the player by 20
when within distance 8 of the boss.  The shockwave ring is presentation
only.  `updateBoss` only calls this while `this.boss` exists. -/
def bossGroundSlam (s : Game) : Game :=
  match s.boss with
  | some bpos => if distLt s.playerPos bpos 8 then takeDamage 20 s else s
  | none => s

/-- Embeds line 1836 of `updateBoss`:
`const attackCooldown = healthPercent > 0.5 ? 2 : 1` with
`healthPercent = this.bossHealth / this.bossMaxHealth` (line 1825). -/
def bossAttackCooldown (bossHealth bossMaxHealth : ℚ) : ℚ :=
  if bossHealth / bossMaxHealth > 1/2 then 2 else 1

/-- Embeds the attack trigger test of line 1838:
`now - this.boss.userData.lastAttack > attackCooldown`. -/
def bossAttackFires (now lastAttack bossHealth bossMaxHealth : ℚ) : Bool :=
  decide (now - lastAttack > bossAttackCooldown bossHealth bossMaxHealth)

/-- Embeds `checkPlatformCollision(platform)` (lines 1645-1688): returns
the (possibly) updated state and the boolean the source returns.  Ground
platforms are skipped; the arena uses a radial test
(`sqrt(x² + z²) < 25`, embedded as the squared comparison, with the
vertical band (0, 2) and downward velocity, landing at y = 2); box
platforms use the strict half-extent footprint test, the strict vertical
band `(top - 0.5, top + 1)` and downward velocity, landing at
`y = top + 1` with vertical velocity zeroed and grounded set. -/
def checkPlatformCollision (p : Platform) (s : Game) : Game × Bool :=
  match p with
  | Platform.ground => (s, false)
  | Platform.arena =>
    if s.playerPos.x * s.playerPos.x + s.playerPos.z * s.playerPos.z < 25 * 25 ∧
        s.playerPos.y < 2 ∧ s.playerPos.y > 0 then
      if s.playerVel.y < 0 then
        ({ s with playerPos := { s.playerPos with y := 2 },
                  playerVel := { s.playerVel with y := 0 },
                  playerOnGround := true }, true)
      else (s, false)
    else (s, false)
  | Platform.box c w h d =>
    let top := c.y + h / 2
    if s.playerPos.x > c.x - w / 2 ∧ s.playerPos.x < c.x + w / 2 ∧
        s.playerPos.z > c.z - d / 2 ∧ s.playerPos.z < c.z + d / 2 then
      if s.playerPos.y < top + 1 ∧ s.playerPos.y > top - 1/2 then
        if s.playerVel.y < 0 then
          ({ s with playerPos := { s.playerPos with y := top + 1 },
                    playerVel := { s.playerVel with y := 0 },
                    playerOnGround := true }, true)
        else (s, false)
      else (s, false)
    else (s, false)

/-- Embeds the platform loop of `updatePlayer` (lines 1628-1632):
`for (const platform of this.platforms) if (checkPlatformCollision(platform)) break;`
registration order, first reported landing stops the scan. -/
def checkPlatforms : List Platform → Game → Game
  | [], s => s
  | p :: ps, s =>
    let r := checkPlatformCollision p s
    if r.2 then r.1 else checkPlatforms ps r.1

/-- Embeds the enemy-hit scan of `updateProjectiles` (lines 1943-1950):
`for (const enemy of this.enemies)` in list order, first enemy within
distance 1.5 takes the projectile's damage and the loop breaks.  Returns
the updated enemy list, or `none` when no enemy is hit. -/
def hitFirstEnemy (ppos : Vec3) (dmg : ℚ) : List Enemy → Option (List Enemy)
  | [] => none
  | e :: es =>
    if distLt ppos e.pos (3/2) then some ({ e with health := e.health - dmg } :: es)
    else
      match hitFirstEnemy ppos dmg es with
      | some es1 => some (e :: es1)
      | none => none

/-- Embeds the player-projectile hit block of `updateProjectiles`
(lines 1941-1958) at a projectile position `q` with damage `dmg`:
the enemy scan (first enemy within 1.5 takes the damage, then
`splice(i, 1)` and `break`), followed unconditionally by the boss test
(within 3 of an existing boss: boss damage and another `splice(i, 1)`)
-- the source's `break` only leaves the enemy loop, so the boss test is
NOT skipped after an enemy hit.  Returns the updated state and how many
`splice(i, 1)` calls ran. -/
def playerProjectileHits (q : Vec3) (dmg : ℚ) (s : Game) : Game × ℕ :=
  match hitFirstEnemy q dmg s.enemies with
  | some es1 =>
    let s1 := { s with enemies := es1 }
    match s1.boss with
    | some b =>
      if distLt q b 3 then ({ s1 with bossHealth := s1.bossHealth - dmg }, 2)
      else (s1, 1)
    | none => (s1, 1)
  | none =>
    match s.boss with
    | some b =>
      if distLt q b 3 then ({ s with bossHealth := s.bossHealth - dmg }, 1)
      else (s, 0)
    | none => (s, 0)

/-- Embeds the enemy-projectile hit block of `updateProjectiles`
(lines 1962-1968): within distance 1 of the player, the player takes the
damage and the projectile is spliced. -/
def enemyProjectileHit (q : Vec3) (dmg : ℚ) (s : Game) : Game × ℕ :=
  if distLt q s.playerPos 1 then (takeDamage dmg s, 1) else (s, 0)

/-- One iteration of the `updateProjectiles` loop (lines 1927-1969) for
the projectile at the current index `i`, given `kept`, the current list
contents at indices above `i` (the loop runs from the last index down to
0, and every `splice` happens at index `i`, so indices below `i` are
never disturbed).  Faithful to the source, every `splice(i, 1)` the
source performs is counted; the first splice removes the current
projectile, and each further splice at the same index removes the next
surviving projectile instead (`kept.drop (n - 1)`), since the array has
already shifted -- a `splice` past the end removes nothing, which `drop`
on a short list also models. -/
def projStep (now delta : ℚ) (proj0 : Projectile) (kept : List Projectile) (s : Game) :
    List Projectile × Game :=
  let proj := { proj0 with pos := Vec3.add proj0.pos (Vec3.scale delta proj0.vel) }
  if now - proj.spawnTime > proj.lifetime then (kept, s)
  else
    let step1 : Game × ℕ :=
      if proj.isPlayerProjectile then playerProjectileHits proj.pos proj.damage s
      else (s, 0)
    let step2 : Game × ℕ :=
      if proj.isEnemyProjectile then enemyProjectileHit proj.pos proj.damage step1.1
      else (step1.1, 0)
    let n := step1.2 + step2.2
    (if n = 0 then proj :: kept else kept.drop (n - 1), step2.1)

/-- The downward index loop of `updateProjectiles`: the head of the list
is index 0 and is processed last, so the recursion first processes the
tail (the higher indices), then runs `projStep` on the head with the
tail's surviving projectiles as `kept`. -/
def updateProjectilesAux (now delta : ℚ) : List Projectile → Game → List Projectile × Game
  | [], s => ([], s)
  | p :: ps, s =>
    let r := updateProjectilesAux now delta ps s
    projStep now delta p r.1 r.2

/-- Embeds `updateProjectiles(delta)` (lines 1924-1970). -/
def updateProjectiles (now delta : ℚ) (s : Game) : Game :=
  let r := updateProjectilesAux now delta s.projectiles s
  { r.2 with projectiles := r.1 }

/-- The state built by the `MiaCroftGame` constructor (lines 19-95):
initial stats, empty registries, `shootCooldown = 0.25`. -/
def constructorGame : Game :=
  { state := GState.menu, currentLevel := 1,
    health := 100, maxHealth := 100, ammo := 30, maxAmmo := 30,
    inventory := [none, none, none],
    puzzleSolved := false, gateOpen := false, exitGate := none,
    playerPos := ⟨0, 0, 0⟩, playerVel := ⟨0, 0, 0⟩, playerOnGround := false,
    platforms := [], collectibles := [], enemies := [], boss := none,
    bossHealth := 100, bossMaxHealth := 100, projectiles := [],
    lastShootTime := 0, shootCooldown := 1/4, pendingTimers := [] }

/-- Embeds `resetPlayer()` (lines 199-203). -/
def resetPlayer (s : Game) : Game :=
  { s with health := s.maxHealth, playerVel := ⟨0, 0, 0⟩, playerOnGround := false }

/-- Embeds `startGame()` (lines 176-185): enter PLAYING at level 1,
reset the player and load level 1. -/
def startGame (s : Game) : Game :=
  loadLevel 1 (resetPlayer { s with state := GState.playing, currentLevel := 1 })

/-- Embeds `restartGame()` (lines 187-197): restore health, ammo and
inventory, return to level 1 in PLAYING, reset the player and load
level 1. -/
def restartGame (s : Game) : Game :=
  loadLevel 1 (resetPlayer
    { s with health := s.maxHealth, ammo := s.maxAmmo,
             inventory := [none, none, none],
             currentLevel := 1, state := GState.playing })

/-- The reachable simulation states: the initial game, followed by any
sequence of the operations that mutate player resources or progression.
Each constructor carries the gating the source enforces at its call
site: `shoot` and `tryInteract` (hence `tryOpenGate`) run only in
PLAYING (lines 1350, 1368); `updateEnemies`, `updateBoss`,
`updateProjectiles`, `updateCollectibles` and `checkLevelCompletion` run
only inside the PLAYING branch of `gameLoop` (lines 1558-1568);
`takeDamage` is only ever called from those update passes (wolf melee
line 1769, ground slam line 1880, enemy projectiles line 1964);
`setTimeout` callbacks and the restart button are not gated. -/
inductive Reach : Game → Prop where
  | init : Reach (startGame constructorGame)
  | stepRestart {s : Game} : Reach s → Reach (restartGame s)
  | stepDamage {s : Game} (a : ℚ) : Reach s → s.state = GState.playing → 0 ≤ a →
      Reach (takeDamage a s)
  | stepCollect {s : Game} (c : Collectible) : Reach s → s.state = GState.playing →
      c ∈ s.collectibles → Reach (collectItem c s)
  | stepShoot {s : Game} (now : ℚ) (dir : Vec3) : Reach s → s.state = GState.playing →
      Reach (shoot now dir s)
  | stepEnemyShoot {s : Game} (now : ℚ) (e : Enemy) (dir : Vec3) : Reach s →
      s.state = GState.playing → e ∈ s.enemies → Reach (enemyShoot now e dir s)
  | stepBossIce {s : Game} (now : ℚ) (bpos : Vec3) (dirs : List Vec3) : Reach s →
      s.state = GState.playing → Reach (bossIceAttack now bpos dirs s)
  | stepSlam {s : Game} : Reach s → s.state = GState.playing → Reach (bossGroundSlam s)
  | stepProjectiles {s : Game} (now delta : ℚ) : Reach s → s.state = GState.playing →
      Reach (updateProjectiles now delta s)
  | stepInteract {s : Game} (now : ℚ) : Reach s → s.state = GState.playing →
      Reach (tryOpenGate now s)
  | stepCompletion {s : Game} : Reach s → s.state = GState.playing →
      Reach (checkLevelCompletion s)
  | stepPlatforms {s : Game} : Reach s → s.state = GState.playing →
      Reach (checkPlatforms s.platforms s)
  | stepTimer {s : Game} (t : Timer) : Reach s → t ∈ s.pendingTimers →
      Reach (fireTimer t s)

/-- The state invariant maintained by every reachable state: ammo bounds
with integrality (all ammo writes are integer steps from integer
constants, so the rational ammo value is always an integer); the health
upper bound; positivity of health in the PLAYING state (a lethal
`takeDamage` leaves PLAYING in the same call); and nonnegativity of all
projectile and enemy damage values. -/
def Inv (s : Game) : Prop :=
  0 ≤ s.ammo ∧ s.ammo ≤ s.maxAmmo ∧ s.maxAmmo = 30 ∧ (∃ k : ℤ, s.ammo = (k : ℚ)) ∧
  s.health ≤ s.maxHealth ∧ 0 < s.maxHealth ∧
  (s.state = GState.playing → 0 < s.health) ∧
  (∀ p ∈ s.projectiles, 0 ≤ p.damage) ∧
  (∀ e ∈ s.enemies, 0 ≤ e.damage)

/-- Count of key items in the inventory. -/
def countKeys : List (Option ItemType) → ℕ
  | [] => 0
  | some ItemType.key :: rest => countKeys rest + 1
  | _ :: rest => countKeys rest

/-- A frame state exercising the projectile hit resolution: one live
wolf at the origin, the boss 2 units away, and two live player
projectiles; the first projectile (array index 0) sits within 1.5 of the
wolf and within 3 of the boss, the second (array index 1) is 100 units
away from everything, freshly spawned, far from expiry. -/
def gHitBoth : Game :=
  { constructorGame with
    state := GState.playing, currentLevel := 3,
    enemies := [mkWolf ⟨0, 0, 0⟩],
    boss := some ⟨2, 0, 0⟩, bossHealth := 100,
    playerPos := ⟨50, 0, 0⟩,
    projectiles :=
      [{ pos := ⟨0, 0, 0⟩, vel := ⟨0, 0, 0⟩, isPlayerProjectile := true,
         isEnemyProjectile := false, damage := 10, lifetime := 10, spawnTime := 0 },
       { pos := ⟨100, 0, 0⟩, vel := ⟨0, 0, 0⟩, isPlayerProjectile := true,
         isEnemyProjectile := false, damage := 10, lifetime := 10, spawnTime := 0 }] }

/-- Level-1 state with the gate already open, a pending gate timer, and
the player at the level-1 spawn, far (over 38 units) from the exit gate
at (35, 2.5, -15). -/
def gFarGate : Game :=
  { startGame constructorGame with
    gateOpen := true,
    pendingTimers := [⟨12, TimerAction.advanceLevel⟩] }

/-- Level-1 state with the gate open and the player half a unit from the
exit gate. -/
def gNearGate : Game :=
  { startGame constructorGame with
    gateOpen := true, playerPos := ⟨35, 3, -15⟩ }

/-- Level-1 state with a key in the first inventory slot and the player
standing at the exit gate (distance 0.5 < 3). -/
def gKeyAtGate : Game :=
  { startGame constructorGame with
    playerPos := ⟨35, 3, -15⟩,
    inventory := [some ItemType.key, none, none] }

/-- A player falling (vertical velocity -1) whose feet are exactly at
the bottom edge of the landing band of a 4 x 1 x 4 box platform centered
at (0, 1, 0): the platform top is 1.5, the band lower edge is
top - 0.5 = 1, and the player y is exactly 1, inside the footprint. -/
def gBandEdge : Game :=
  { constructorGame with
    state := GState.playing,
    playerPos := ⟨0, 1, 0⟩, playerVel := ⟨0, -1, 0⟩,
    platforms := [Platform.ground, Platform.box ⟨0, 1, 0⟩ 4 1 4] }

/-- A player falling strictly inside the landing band (y = 2, band
(1, 2.5)) of the same box platform. -/
def gBandInside : Game :=
  { constructorGame with
    state := GState.playing,
    playerPos := ⟨0, 2, 0⟩, playerVel := ⟨0, -1, 0⟩,
    platforms := [Platform.ground, Platform.box ⟨0, 1, 0⟩ 4 1 4] }

/-- Start-of-game state with the ammo spent down to zero. -/
def gNoAmmo : Game := { startGame constructorGame with ammo := 0 }

/-- Start-of-game state with the player worn down to 10 health. -/
def gWounded : Game := { startGame constructorGame with health := 10 }

/-- The gate-opening animation leaves the gate flag untouched (it only
schedules a timer). -/
lemma openGateAnimation_gateOpen (now : ℚ) (s : Game) :
    (openGateAnimation now s).gateOpen = s.gateOpen := by
  unfold openGateAnimation
  cases s.exitGate <;> rfl

/-- The gate-opening animation leaves the inventory untouched. -/
lemma openGateAnimation_inventory (now : ℚ) (s : Game) :
    (openGateAnimation now s).inventory = s.inventory := by
  unfold openGateAnimation
  cases s.exitGate <;> rfl

/-- The gate-opening animation leaves the puzzle flag untouched. -/
lemma openGateAnimation_puzzleSolved (now : ℚ) (s : Game) :
    (openGateAnimation now s).puzzleSolved = s.puzzleSolved := by
  unfold openGateAnimation
  cases s.exitGate <;> rfl

/-- Nulling the first key slot removes exactly one key. -/
lemma removeFirstKey_countKeys (inv : List (Option ItemType))
    (h : hasKeyInv inv = true) : countKeys (removeFirstKey inv) + 1 = countKeys inv := by
  induction inv with
  | nil => simp [hasKeyInv] at h
  | cons x rest ih =>
    cases x with
    | none =>
      have hr : hasKeyInv rest = true := by
        simpa [hasKeyInv, List.any_cons] using h
      simpa [removeFirstKey, countKeys] using ih hr
    | some it =>
      cases it
      rfl

/-- C5: `tryOpenGate` on level 1 opens the gate iff the inventory holds
a key at interaction time (with a key it opens; without one the whole
state is unchanged), and on success removes exactly one key; on level 2
it opens the gate iff `puzzleSolved` holds, and `puzzleSolved` is never
cleared; on any level above 2 it does nothing (fails closed). -/
theorem C5_tryOpenGate_spec (now : ℚ) (s : Game) :
    (s.currentLevel = 1 → hasKeyInv s.inventory = true →
      (tryOpenGate now s).gateOpen = true ∧
      countKeys (tryOpenGate now s).inventory + 1 = countKeys s.inventory) ∧
    (s.currentLevel = 1 → hasKeyInv s.inventory = false → tryOpenGate now s = s) ∧
    (s.currentLevel = 2 → s.puzzleSolved = true →
      (tryOpenGate now s).gateOpen = true ∧
      (tryOpenGate now s).puzzleSolved = true) ∧
    (s.currentLevel = 2 → s.puzzleSolved = false → tryOpenGate now s = s) ∧
    (2 < s.currentLevel → tryOpenGate now s = s) := by
  refine ⟨fun hl1 hk => ?_, fun hl1 hk => ?_, fun hl2 hp => ?_, fun hl2 hp => ?_, fun hl3 => ?_⟩
  · unfold tryOpenGate
    rw [if_pos hl1, if_pos hk]
    constructor
    · show (openGateAnimation now { s with gateOpen := true }).gateOpen = true
      rw [openGateAnimation_gateOpen]
    · show countKeys (removeFirstKey
          (openGateAnimation now { s with gateOpen := true }).inventory) + 1 =
        countKeys s.inventory
      rw [openGateAnimation_inventory]
      exact removeFirstKey_countKeys s.inventory hk
  · unfold tryOpenGate
    rw [if_pos hl1, if_neg (by simp [hk])]
  · unfold tryOpenGate
    rw [if_neg (by omega), if_pos hl2, if_pos hp]
    refine ⟨openGateAnimation_gateOpen now _, ?_⟩
    rw [openGateAnimation_puzzleSolved]
    exact hp
  · unfold tryOpenGate
    rw [if_neg (by omega), if_pos hl2, if_neg (by simp [hp])]
  · unfold tryOpenGate
    rw [if_neg (by omega), if_neg (by omega)]

/-- Witness for C5: interacting with the level-1 gate holding a key
opens it and consumes exactly the one key. -/
theorem C5_tryOpenGate_spec_witness :
    (tryOpenGate 0 gKeyAtGate).gateOpen = true ∧
    countKeys (tryOpenGate 0 gKeyAtGate).inventory + 1 = countKeys gKeyAtGate.inventory :=
  (C5_tryOpenGate_spec 0 gKeyAtGate).1 rfl rfl

/-- The level counter always increments by exactly one in `nextLevel`
(whether the result is a level load or the victory state). -/
lemma nextLevel_currentLevel (s : Game) : (nextLevel s).currentLevel = s.currentLevel + 1 := by
  unfold nextLevel victoryState loadLevel clearLevel
  dsimp only
  split_ifs <;> rfl

/-- C3 (amended): `checkLevelCompletion` advances the level iff an exit
gate exists, the gate is open and the player is within distance 3 of it;
but it is not the only advancing path: any pending gate timer fires
`nextLevel` unconditionally, incrementing the level wherever the player
stands. -/
theorem C3_completion_spec (s : Game) :
    (s.exitGate = none → checkLevelCompletion s = s) ∧
    (s.gateOpen = false → checkLevelCompletion s = s) ∧
    (∀ g, s.exitGate = some g → s.gateOpen = true → distLt s.playerPos g 3 = true →
      checkLevelCompletion s = nextLevel s) ∧
    (∀ g, s.exitGate = some g → s.gateOpen = true → distLt s.playerPos g 3 = false →
      checkLevelCompletion s = s) ∧
    (nextLevel s).currentLevel = s.currentLevel + 1 ∧
    (∀ t : Timer, t.action = TimerAction.advanceLevel →
      (fireTimer t s).currentLevel = s.currentLevel + 1) := by
  refine ⟨fun hn => ?_, fun hg => ?_, fun g hgate hopen hnear => ?_,
    fun g hgate hopen hfar => ?_, nextLevel_currentLevel s, fun t ht => ?_⟩
  · unfold checkLevelCompletion
    rw [hn]
  · unfold checkLevelCompletion
    cases hgate : s.exitGate with
    | none => rfl
    | some g =>
      dsimp only
      rw [hg]
      simp
  · unfold checkLevelCompletion
    rw [hgate]
    dsimp only
    rw [if_pos hopen, if_pos hnear]
  · unfold checkLevelCompletion
    rw [hgate]
    dsimp only
    rw [if_pos hopen, hfar]
    simp
  · unfold fireTimer
    rw [ht]
    exact nextLevel_currentLevel _

/-- C6: for every boss update frame, the attack cooldown of line 1836 is
2 seconds when `bossHealth / bossMaxHealth > 0.5` and 1 second
otherwise; at a health fraction of exactly one half (`2 * h = m` with a
positive maximum) the 1-second cooldown is used. -/
theorem C6_boss_cooldown_spec (h m : ℚ) :
    (1/2 < h / m → bossAttackCooldown h m = 2) ∧
    (h / m ≤ 1/2 → bossAttackCooldown h m = 1) ∧
    (0 < m → 2 * h = m → bossAttackCooldown h m = 1) := by
  refine ⟨fun hgt => ?_, fun hle => ?_, fun hm hhalf => ?_⟩
  · simp only [bossAttackCooldown, if_pos hgt]
  · simp only [bossAttackCooldown, if_neg (not_lt.mpr hle)]
  · have hfrac : h / m = 1/2 := by
      field_simp
      linarith
    simp only [bossAttackCooldown, hfrac]
    norm_num

/-- Witness for C6 at the exact phase boundary: a boss at 50 of 100
health uses the 1 second cooldown. -/
theorem C6_boss_cooldown_spec_witness : bossAttackCooldown 50 100 = 1 :=
  (C6_boss_cooldown_spec 50 100).2.2 (by norm_num) (by norm_num)

/-- C8: a call to `shoot` with zero ammo creates no projectile and
leaves the ammo unchanged (whether or not the cooldown has elapsed, the
function returns before any mutation). -/
theorem C8_shoot_no_ammo (now : ℚ) (dir : Vec3) (s : Game) (h : s.ammo = 0) :
    (shoot now dir s).projectiles = s.projectiles ∧ (shoot now dir s).ammo = s.ammo := by
  unfold shoot
  split_ifs with h1 h2
  · exact ⟨rfl, rfl⟩
  · exact ⟨rfl, rfl⟩
  · exact absurd (le_of_eq h) h2

/-- Witness for C8: shooting from the freshly started game with its
ammo forced to zero changes nothing. -/
theorem C8_shoot_no_ammo_witness :
    (shoot 5 ⟨0, 0, -1⟩ gNoAmmo).projectiles = gNoAmmo.projectiles ∧
    (shoot 5 ⟨0, 0, -1⟩ gNoAmmo).ammo = gNoAmmo.ammo :=
  C8_shoot_no_ammo 5 ⟨0, 0, -1⟩ gNoAmmo rfl

/-- C9: every `takeDamage` call that brings health to 0 or below enters
the terminal GAME_OVER state within the same call (and records the
un-clamped health value).  Every damage source routes through
`takeDamage`: wolf melee (line 1769), enemy and boss projectiles via
`updateProjectiles` (line 1964, see `projStep`), and the boss ground
slam (line 1880, see `bossGroundSlam`). -/
theorem C9_lethal_damage_game_over (a : ℚ) (s : Game) (h : s.health - a ≤ 0) :
    (takeDamage a s).state = GState.gameOver ∧ (takeDamage a s).health = s.health - a := by
  unfold takeDamage
  dsimp only
  rw [if_pos h]
  exact ⟨rfl, rfl⟩

/-- Witness for C9: a 30-damage hit on a 10-health player enters
GAME_OVER in that call. -/
theorem C9_lethal_damage_game_over_witness :
    (takeDamage 30 gWounded).state = GState.gameOver ∧
    (takeDamage 30 gWounded).health = gWounded.health - 30 :=
  C9_lethal_damage_game_over 30 gWounded (by norm_num [gWounded])

/-- C10: a `shoot` call blocked by the cooldown
(`now - lastShootTime < shootCooldown`) returns before any mutation:
the entire state, in particular ammo, `lastShootTime` and the
projectile list, is exactly as before. -/
theorem C10_shoot_cooldown_blocked (now : ℚ) (dir : Vec3) (s : Game)
    (h : now - s.lastShootTime < s.shootCooldown) : shoot now dir s = s := by
  unfold shoot
  rw [if_pos h]

/-- Witness for C10: shooting again 1/8 s after the previous shot
(cooldown 1/4 s) leaves the started game untouched. -/
theorem C10_shoot_cooldown_blocked_witness :
    shoot (1/8) ⟨0, 0, -1⟩ (startGame constructorGame) = startGame constructorGame :=
  C10_shoot_cooldown_blocked (1/8) ⟨0, 0, -1⟩ (startGame constructorGame)
    (by norm_num [startGame, resetPlayer, loadLevel, clearLevel, constructorGame])

/-- C3 (counterexample to the claim as stated): in a PLAYING level-1
state with the gate open and the player more than 3 units from the gate,
the frame completion check does not advance the level, yet the pending
gate timer firing does advance it -- a second advancing path besides the
distance check. -/
theorem C3_timer_bypasses_distance :
    gFarGate.state = GState.playing ∧
    gFarGate.exitGate = some ⟨35, 5/2, -15⟩ ∧
    gFarGate.gateOpen = true ∧
    distLt gFarGate.playerPos ⟨35, 5/2, -15⟩ 3 = false ∧
    checkLevelCompletion gFarGate = gFarGate ∧
    (fireTimer ⟨12, TimerAction.advanceLevel⟩ gFarGate).currentLevel =
      gFarGate.currentLevel + 1 := by
  refine ⟨rfl, rfl, rfl, ?_, ?_, ?_⟩
  · norm_num [gFarGate, startGame, resetPlayer, loadLevel, clearLevel, constructorGame,
      levelPlayerStart, distLt, Vec3.distSq]
  · norm_num [checkLevelCompletion, gFarGate, startGame, resetPlayer, loadLevel,
      clearLevel, constructorGame, levelPlayerStart, levelExitGate, distLt, Vec3.distSq]
  · norm_num [fireTimer, runTimerAction, nextLevel, victoryState, loadLevel, clearLevel,
      maxLevels, gFarGate, startGame, resetPlayer, constructorGame, List.erase]

/-- Witness for C3: with the gate open and the player half a unit from
it, the completion check advances the level, and a firing gate timer
increments the level counter. -/
theorem C3_completion_spec_witness :
    checkLevelCompletion gNearGate = nextLevel gNearGate ∧
    (fireTimer ⟨0, TimerAction.advanceLevel⟩ gNearGate).currentLevel =
      gNearGate.currentLevel + 1 := by
  have hh := C3_completion_spec gNearGate
  refine ⟨hh.2.2.1 ⟨35, 5/2, -15⟩ rfl rfl ?_, hh.2.2.2.2.2 ⟨0, TimerAction.advanceLevel⟩ rfl⟩
  norm_num [gNearGate, startGame, resetPlayer, loadLevel, clearLevel, constructorGame,
    distLt, Vec3.distSq]

/-- C4: the gate-open transition timer carries no guard against a level
change.  Concretely: opening the level-1 gate at t = 10 schedules the
timer for t = 12; the player crosses the gate, and the completion check
loads level 2; the stale timer is still pending, and firing it advances
the freshly loaded level 2 to level 3 -- the deferred callback is not a
no-op against the new level's state. -/
theorem C4_stale_timer_advances_new_level :
    (tryOpenGate 10 gKeyAtGate).gateOpen = true ∧
    (tryOpenGate 10 gKeyAtGate).pendingTimers = [⟨12, TimerAction.advanceLevel⟩] ∧
    (checkLevelCompletion (tryOpenGate 10 gKeyAtGate)).currentLevel = 2 ∧
    (checkLevelCompletion (tryOpenGate 10 gKeyAtGate)).pendingTimers =
      [⟨12, TimerAction.advanceLevel⟩] ∧
    (fireTimer ⟨12, TimerAction.advanceLevel⟩
      (checkLevelCompletion (tryOpenGate 10 gKeyAtGate))).currentLevel = 3 := by
  refine ⟨?_, ?_, ?_, ?_, ?_⟩ <;>
    norm_num [fireTimer, runTimerAction, checkLevelCompletion, tryOpenGate, hasKeyInv,
      removeFirstKey, openGateAnimation, nextLevel, victoryState, loadLevel, clearLevel,
      startGame, resetPlayer, constructorGame, gKeyAtGate, levelPlatforms,
      levelCollectibles, levelEnemies, levelExitGate, levelPlayerStart, distLt,
      Vec3.distSq, maxLevels, List.erase]

/-- C1: evaluation of `updateProjectiles` on `gHitBoth`.  The projectile
at index 0 is within 1.5 of the wolf and within 3 of the boss: the code
damages the wolf AND the boss with the same projectile in the same frame
(the boss test is not skipped after the enemy match), and the two
`splice` calls at the same index also delete the unrelated projectile at
index 1, which was neither expired (1 - 0 is well below its lifetime 10)
nor within hit range of anything. -/
theorem C1_projectile_double_hit :
    (updateProjectiles 1 0 gHitBoth).enemies.map Enemy.health = [20] ∧
    (updateProjectiles 1 0 gHitBoth).bossHealth = gHitBoth.bossHealth - 10 ∧
    (updateProjectiles 1 0 gHitBoth).projectiles = [] ∧
    distLt ⟨100, 0, 0⟩ ⟨0, 0, 0⟩ (3/2) = false ∧
    distLt ⟨100, 0, 0⟩ ⟨2, 0, 0⟩ 3 = false ∧
    distLt ⟨100, 0, 0⟩ gHitBoth.playerPos 1 = false := by
  refine ⟨?_, ?_, ?_, ?_, ?_, ?_⟩ <;>
    norm_num [updateProjectiles, updateProjectilesAux, projStep, playerProjectileHits,
      enemyProjectileHit, hitFirstEnemy, distLt, Vec3.distSq, Vec3.add, Vec3.scale,
      gHitBoth, constructorGame, mkWolf, takeDamage]

/-- C2 (counterexample to the claim as stated): from the freshly started
game, two wolf-damage hits of 70 and 50 reach a state -- reachable by
the modeled step relation -- whose health is strictly negative:
`takeDamage` does not clamp health at 0. -/
theorem C2_health_below_zero :
    Reach (takeDamage 50 (takeDamage 70 (startGame constructorGame))) ∧
    (takeDamage 50 (takeDamage 70 (startGame constructorGame))).health < 0 := by
  constructor
  · refine Reach.stepDamage 50 (Reach.stepDamage 70 Reach.init rfl (by norm_num)) ?_ (by norm_num)
    norm_num [takeDamage, startGame, resetPlayer, loadLevel, clearLevel, constructorGame]
  · norm_num [takeDamage, startGame, resetPlayer, loadLevel, clearLevel, constructorGame]

/-- A platform check that reports no landing also leaves the state
untouched (every `false` branch of lines 1645-1688 returns without
mutating the player). -/
lemma checkPlatformCollision_false_fst (p : Platform) (s : Game)
    (hf : (checkPlatformCollision p s).2 = false) :
    (checkPlatformCollision p s).1 = s := by
  cases p with
  | ground => rfl
  | arena =>
    unfold checkPlatformCollision at hf ⊢
    dsimp only at hf ⊢
    split_ifs at hf ⊢ <;> rfl
  | box c w hgt d =>
    unfold checkPlatformCollision at hf ⊢
    dsimp only at hf ⊢
    split_ifs at hf ⊢ <;> rfl

/-- The box landing test holds exactly when the player is strictly
inside the half-width/half-depth footprint, strictly inside the vertical
band `(top - 0.5, top + 1)`, and moving downward. -/
lemma checkPlatformCollision_box_test (c : Vec3) (w hgt d : ℚ) (s : Game) :
    (checkPlatformCollision (Platform.box c w hgt d) s).2 = true ↔
      (c.x - w/2 < s.playerPos.x ∧ s.playerPos.x < c.x + w/2 ∧
       c.z - d/2 < s.playerPos.z ∧ s.playerPos.z < c.z + d/2 ∧
       c.y + hgt/2 - 1/2 < s.playerPos.y ∧ s.playerPos.y < c.y + hgt/2 + 1 ∧
       s.playerVel.y < 0) := by
  unfold checkPlatformCollision
  dsimp only
  split_ifs with h1 h2 h3
  · simp only [true_iff]
    exact ⟨h1.1, h1.2.1, h1.2.2.1, h1.2.2.2, by linarith [h2.2], h2.1, h3⟩
  · simp only [Bool.false_eq_true, false_iff]
    intro hc
    exact h3 hc.2.2.2.2.2.2
  · simp only [Bool.false_eq_true, false_iff]
    intro hc
    exact h2 ⟨hc.2.2.2.2.2.1, by linarith [hc.2.2.2.2.1]⟩
  · simp only [Bool.false_eq_true, false_iff]
    intro hc
    exact h1 ⟨hc.1, hc.2.1, hc.2.2.1, hc.2.2.2.1⟩

/-- A successful box landing clamps the player to `top + 1`, zeroes the
vertical velocity and sets the grounded flag. -/
lemma checkPlatformCollision_box_land (c : Vec3) (w hgt d : ℚ) (s : Game)
    (ht : (checkPlatformCollision (Platform.box c w hgt d) s).2 = true) :
    (checkPlatformCollision (Platform.box c w hgt d) s).1 =
      { s with playerPos := { s.playerPos with y := c.y + hgt/2 + 1 },
               playerVel := { s.playerVel with y := 0 },
               playerOnGround := true } := by
  unfold checkPlatformCollision at ht ⊢
  dsimp only at ht ⊢
  split_ifs at ht ⊢ <;> rfl

/-- The platform scan resolves with the first platform whose check
passes: platforms before it leave the state untouched, and platforms
after it are never consulted. -/
lemma checkPlatforms_first (pre post : List Platform) (p : Platform) (s : Game)
    (hpre : ∀ q ∈ pre, (checkPlatformCollision q s).2 = false)
    (hp : (checkPlatformCollision p s).2 = true) :
    checkPlatforms (pre ++ p :: post) s = (checkPlatformCollision p s).1 := by
  induction pre with
  | nil =>
    rw [List.nil_append]
    unfold checkPlatforms
    dsimp only
    rw [hp]
    simp
  | cons q qs ih =>
    have hq := hpre q (List.mem_cons_self q qs)
    have hq1 := checkPlatformCollision_false_fst q s hq
    rw [List.cons_append]
    unfold checkPlatforms
    dsimp only
    rw [hq, hq1]
    simp only [Bool.false_eq_true, if_false]
    exact ih fun r hr => hpre r (List.mem_cons_of_mem q hr)

/-- C7 (amended): the first platform in registration order whose test
passes resolves the landing (platforms after it are not consulted, and
the result does not depend on them); for a box platform the test is:
player strictly within the half-width/half-depth footprint, player y
strictly inside the band `(top - 0.5, top + 1)` -- open, not closed, at
the lower edge -- and downward velocity; on success the player y is set
to `top + 1`, the vertical velocity to 0, and grounded to true. -/
theorem C7_platform_landing_spec (pre post : List Platform) (c : Vec3)
    (w hgt d : ℚ) (s : Game)
    (hpre : ∀ q ∈ pre, (checkPlatformCollision q s).2 = false)
    (hland : c.x - w/2 < s.playerPos.x ∧ s.playerPos.x < c.x + w/2 ∧
      c.z - d/2 < s.playerPos.z ∧ s.playerPos.z < c.z + d/2 ∧
      c.y + hgt/2 - 1/2 < s.playerPos.y ∧ s.playerPos.y < c.y + hgt/2 + 1 ∧
      s.playerVel.y < 0) :
    checkPlatforms (pre ++ Platform.box c w hgt d :: post) s =
      { s with playerPos := { s.playerPos with y := c.y + hgt/2 + 1 },
               playerVel := { s.playerVel with y := 0 },
               playerOnGround := true } := by
  have ht : (checkPlatformCollision (Platform.box c w hgt d) s).2 = true :=
    (checkPlatformCollision_box_test c w hgt d s).mpr hland
  rw [checkPlatforms_first pre post _ s hpre ht]
  exact checkPlatformCollision_box_land c w hgt d s ht

/-- Witness for C7: a falling player strictly inside the landing band of
the first box platform lands on it: y is clamped to top + 1 = 2.5, the
fall stops, grounded is set. -/
theorem C7_platform_landing_spec_witness :
    checkPlatforms ([Platform.ground] ++ Platform.box ⟨0, 1, 0⟩ 4 1 4 :: []) gBandInside =
      { gBandInside with
        playerPos := { gBandInside.playerPos with y := (1 : ℚ) + 1/2 + 1 },
        playerVel := { gBandInside.playerVel with y := 0 },
        playerOnGround := true } :=
  C7_platform_landing_spec [Platform.ground] [] ⟨0, 1, 0⟩ 4 1 4 gBandInside
    (by
      intro q hq
      rw [List.mem_singleton] at hq
      subst hq
      rfl)
    (by norm_num [gBandInside, constructorGame])

/-- C7 (counterexample to the claim as stated): a falling player whose y
is exactly `top - 0.5` (here 1, for a platform top of 1.5), inside the
footprint, is in the claim's closed-bottom band `[top - 0.5, top + 1)`,
yet the code's strict `>` rejects the landing and the whole platform
scan leaves the state unchanged. -/
theorem C7_band_lower_boundary :
    gBandEdge.playerPos.y = (1 : ℚ) + 1/2 - 1/2 ∧
    ((0 : ℚ) - 4/2 < gBandEdge.playerPos.x ∧ gBandEdge.playerPos.x < 0 + 4/2 ∧
      (0 : ℚ) - 4/2 < gBandEdge.playerPos.z ∧ gBandEdge.playerPos.z < 0 + 4/2) ∧
    gBandEdge.playerVel.y < 0 ∧
    (checkPlatformCollision (Platform.box ⟨0, 1, 0⟩ 4 1 4) gBandEdge).2 = false ∧
    checkPlatforms gBandEdge.platforms gBandEdge = gBandEdge := by
  refine ⟨?_, ?_, ?_, ?_, ?_⟩
  · norm_num [gBandEdge, constructorGame]
  · norm_num [gBandEdge, constructorGame]
  · norm_num [gBandEdge, constructorGame]
  · norm_num [checkPlatformCollision, gBandEdge, constructorGame]
  · norm_num [checkPlatforms, checkPlatformCollision, gBandEdge, constructorGame]

/-- The per-level enemy rosters only carry the nonnegative damage
constants 10 (wolf) and 15 (spirit). -/
lemma levelEnemies_damage (n : ℕ) : ∀ e ∈ levelEnemies n, 0 ≤ e.damage := by
  unfold levelEnemies
  split_ifs <;> intro e he <;>
    simp only [List.mem_cons, List.not_mem_nil, or_false] at he <;>
    try rcases he with rfl | rfl | rfl
  all_goals norm_num [mkWolf, mkSpirit]

/-- `takeDamage` by a nonnegative amount preserves the invariant: health
only drops (so stays at most the maximum), and whenever the result is
still PLAYING the guard of line 1510 did not fire, so health is
positive. -/
lemma inv_takeDamage {s : Game} {a : ℚ} (ha : 0 ≤ a) (hs : Inv s) : Inv (takeDamage a s) := by
  unfold Inv at hs
  obtain ⟨h1, h2, h3, h4, h5, h6, h7, h8, h9⟩ := hs
  unfold takeDamage
  dsimp only
  split_ifs with hle
  · refine ⟨h1, h2, h3, h4, ?_, h6, fun hst => absurd hst (by simp), h8, h9⟩
    show s.health - a ≤ s.maxHealth
    linarith
  · refine ⟨h1, h2, h3, h4, ?_, h6, fun _ => not_le.mp hle, h8, h9⟩
    show s.health - a ≤ s.maxHealth
    linarith

/-- `collectItem` preserves the invariant: heal and ammo refill are
clamped by `min` against the maxima. -/
lemma inv_collectItem {s : Game} (c : Collectible) (hs : Inv s) : Inv (collectItem c s) := by
  unfold Inv at hs
  obtain ⟨h1, h2, h3, h4, h5, h6, h7, h8, h9⟩ := hs
  unfold collectItem
  cases hc : c.ctype <;> dsimp only <;> unfold Inv
  case health =>
    refine ⟨h1, h2, h3, h4, min_le_right _ _, h6, fun hst => ?_, h8, h9⟩
    have hpos := h7 hst
    exact lt_min (by linarith) h6
  case ammo =>
    obtain ⟨k, hk⟩ := h4
    refine ⟨le_min (by linarith) (by linarith), min_le_right _ _, h3,
      ⟨min (k + 10) 30, ?_⟩, h5, h6, h7, h8, h9⟩
    show min (s.ammo + 10) s.maxAmmo = ((min (k + 10) 30 : ℤ) : ℚ)
    rw [hk, h3]
    push_cast
    rfl
  case key =>
    exact ⟨h1, h2, h3, h4, h5, h6, h7, h8, h9⟩

/-- `shoot` preserves the invariant: it only fires with positive
(integer) ammo, and the spawned projectile carries damage 10. -/
lemma inv_shoot {s : Game} (now : ℚ) (dir : Vec3) (hs : Inv s) : Inv (shoot now dir s) := by
  unfold Inv at hs
  obtain ⟨h1, h2, h3, h4, h5, h6, h7, h8, h9⟩ := hs
  unfold shoot
  split_ifs with hcool hammo
  · exact ⟨h1, h2, h3, h4, h5, h6, h7, h8, h9⟩
  · exact ⟨h1, h2, h3, h4, h5, h6, h7, h8, h9⟩
  · obtain ⟨k, hk⟩ := h4
    have hk0 : 0 < k := by
      have hpos : (0 : ℚ) < (k : ℚ) := hk ▸ not_le.mp hammo
      exact_mod_cast hpos
    have hk1 : (1 : ℚ) ≤ s.ammo := by
      rw [hk]
      exact_mod_cast hk0
    unfold Inv
    refine ⟨by linarith, by linarith, h3, ⟨k - 1, by rw [hk]; push_cast; ring⟩,
      h5, h6, h7, fun p hp => ?_, h9⟩
    rcases List.mem_append.mp hp with hmem | hmem
    · exact h8 p hmem
    · rw [List.mem_singleton] at hmem
      subst hmem
      norm_num

/-- `enemyShoot` preserves the invariant: the spawned projectile
inherits the shooter's damage, nonnegative for a registered enemy. -/
lemma inv_enemyShoot {s : Game} (now : ℚ) (e : Enemy) (dir : Vec3)
    (he : e ∈ s.enemies) (hs : Inv s) : Inv (enemyShoot now e dir s) := by
  unfold Inv at hs
  obtain ⟨h1, h2, h3, h4, h5, h6, h7, h8, h9⟩ := hs
  unfold enemyShoot
  refine ⟨h1, h2, h3, h4, h5, h6, h7, fun p hp => ?_, h9⟩
  rcases List.mem_append.mp hp with hmem | hmem
  · exact h8 p hmem
  · rw [List.mem_singleton] at hmem
    subst hmem
    exact h9 e he

/-- `bossIceAttack` preserves the invariant: every shard carries the
constant damage 15. -/
lemma inv_bossIceAttack {s : Game} (now : ℚ) (bpos : Vec3) (dirs : List Vec3)
    (hs : Inv s) : Inv (bossIceAttack now bpos dirs s) := by
  unfold Inv at hs
  obtain ⟨h1, h2, h3, h4, h5, h6, h7, h8, h9⟩ := hs
  unfold bossIceAttack
  refine ⟨h1, h2, h3, h4, h5, h6, h7, fun p hp => ?_, h9⟩
  rcases List.mem_append.mp hp with hmem | hmem
  · exact h8 p hmem
  · obtain ⟨d, _, rfl⟩ := List.mem_map.mp hmem
    norm_num

/-- `bossGroundSlam` preserves the invariant (it is `takeDamage 20` when
the player is in the blast radius). -/
lemma inv_bossGroundSlam {s : Game} (hs : Inv s) : Inv (bossGroundSlam s) := by
  unfold bossGroundSlam
  cases s.boss with
  | none => exact hs
  | some bpos =>
    dsimp only
    split_ifs
    · exact inv_takeDamage (by norm_num) hs
    · exact hs

/-- The first-enemy hit scan only rewrites one enemy's health: every
damage value in the output roster already occurs in the input roster. -/
lemma hitFirstEnemy_damage {q : Vec3} {dmg : ℚ} {es es1 : List Enemy}
    (h : ∀ e ∈ es, 0 ≤ e.damage) (heq : hitFirstEnemy q dmg es = some es1) :
    ∀ e ∈ es1, 0 ≤ e.damage := by
  induction es generalizing es1 with
  | nil => simp [hitFirstEnemy] at heq
  | cons e es ih =>
    rw [hitFirstEnemy] at heq
    split_ifs at heq with hd
    · cases heq
      intro e2 he2
      rcases List.mem_cons.mp he2 with heq2 | hmem
      · rw [heq2]
        exact h e (List.mem_cons_self e es)
      · exact h e2 (List.mem_cons_of_mem e hmem)
    · rcases hrec : hitFirstEnemy q dmg es with _ | es2 <;> rw [hrec] at heq
      · cases heq
      · cases heq
        intro e2 he2
        rcases List.mem_cons.mp he2 with heq2 | hmem
        · rw [heq2]
          exact h e (List.mem_cons_self e es)
        · exact ih (fun x hx => h x (List.mem_cons_of_mem e hx)) hrec e2 hmem

/-- The player-projectile hit block preserves the invariant (enemy
health and boss health drops do not touch any invariant field except the
enemy roster, whose damage values are unchanged). -/
lemma inv_playerProjectileHits {s : Game} (q : Vec3) (dmg : ℚ) (hs : Inv s) :
    Inv (playerProjectileHits q dmg s).1 := by
  unfold playerProjectileHits
  rcases hfe : hitFirstEnemy q dmg s.enemies with _ | es1 <;> dsimp only
  · cases s.boss with
    | none => exact hs
    | some b =>
      dsimp only
      split_ifs
      · exact hs
      · exact hs
  · unfold Inv at hs
    obtain ⟨h1, h2, h3, h4, h5, h6, h7, h8, h9⟩ := hs
    have h9n := hitFirstEnemy_damage h9 hfe
    cases s.boss with
    | none => exact ⟨h1, h2, h3, h4, h5, h6, h7, h8, h9n⟩
    | some b =>
      dsimp only
      split_ifs
      · exact ⟨h1, h2, h3, h4, h5, h6, h7, h8, h9n⟩
      · exact ⟨h1, h2, h3, h4, h5, h6, h7, h8, h9n⟩

/-- The enemy-projectile hit block preserves the invariant. -/
lemma inv_enemyProjectileHit {s : Game} (q : Vec3) {dmg : ℚ} (hd : 0 ≤ dmg)
    (hs : Inv s) : Inv (enemyProjectileHit q dmg s).1 := by
  unfold enemyProjectileHit
  split_ifs
  · exact inv_takeDamage hd hs
  · exact hs

/-- Elements of a cons list headed by the moved projectile have
nonnegative damage when the original projectile and the kept list do. -/
lemma damage_cons_aux {proj0 : Projectile} {q : Vec3} {kept : List Projectile}
    (hp : 0 ≤ proj0.damage) (hk : ∀ x ∈ kept, 0 ≤ x.damage) :
    ∀ x ∈ ({ proj0 with pos := q } : Projectile) :: kept, 0 ≤ x.damage := by
  intro x hx
  rcases List.mem_cons.mp hx with heq2 | hmem
  · rw [heq2]
    exact hp
  · exact hk x hmem

/-- Dropping a prefix preserves damage nonnegativity of the members. -/
lemma damage_drop_aux {kept : List Projectile} (n : ℕ)
    (hk : ∀ x ∈ kept, 0 ≤ x.damage) : ∀ x ∈ kept.drop n, 0 ≤ x.damage :=
  fun x hx => hk x (List.mem_of_mem_drop hx)

set_option maxHeartbeats 800000 in
/-- One projectile-loop iteration preserves the invariant, and every
surviving projectile in the output list is the moved current projectile
or an element of `kept`, so damage nonnegativity is preserved. -/
lemma inv_projStep {now delta : ℚ} {proj0 : Projectile} {kept : List Projectile}
    {s : Game} (hp : 0 ≤ proj0.damage) (hk : ∀ q ∈ kept, 0 ≤ q.damage)
    (hs : Inv s) :
    (∀ q ∈ (projStep now delta proj0 kept s).1, 0 ≤ q.damage) ∧
      Inv (projStep now delta proj0 kept s).2 := by
  unfold projStep
  dsimp only
  split_ifs <;> refine ⟨?_, ?_⟩ <;> dsimp only
  · exact hk
  · exact hs
  · exact damage_cons_aux hp hk
  · exact inv_enemyProjectileHit _ hp (inv_playerProjectileHits _ _ hs)
  · exact damage_drop_aux _ hk
  · exact inv_enemyProjectileHit _ hp (inv_playerProjectileHits _ _ hs)
  · exact damage_cons_aux hp hk
  · exact inv_playerProjectileHits _ _ hs
  · exact damage_drop_aux _ hk
  · exact inv_playerProjectileHits _ _ hs
  · exact damage_cons_aux hp hk
  · exact inv_enemyProjectileHit _ hp hs
  · exact damage_drop_aux _ hk
  · exact inv_enemyProjectileHit _ hp hs
  · exact damage_cons_aux hp hk
  · exact hs
  · exact damage_drop_aux _ hk
  · exact hs

/-- The full projectile update pass preserves the invariant. -/
lemma inv_updateProjectilesAux (now delta : ℚ) (ps : List Projectile) {s : Game}
    (hs : Inv s) :
    (∀ p ∈ ps, 0 ≤ p.damage) →
      (∀ q ∈ (updateProjectilesAux now delta ps s).1, 0 ≤ q.damage) ∧
        Inv (updateProjectilesAux now delta ps s).2 := by
  induction ps with
  | nil => exact fun _ => ⟨fun q hq => absurd hq (List.not_mem_nil q), hs⟩
  | cons p ps ih =>
    intro hps
    unfold updateProjectilesAux
    dsimp only
    have hr := ih fun x hx => hps x (List.mem_cons_of_mem p hx)
    exact inv_projStep (hps p (List.mem_cons_self p ps)) hr.1 hr.2

/-- `updateProjectiles` preserves the invariant. -/
lemma inv_updateProjectiles (now delta : ℚ) {s : Game} (hs : Inv s) :
    Inv (updateProjectiles now delta s) := by
  obtain ⟨h1, h2, h3, h4, h5, h6, h7, h8, h9⟩ := hs
  unfold updateProjectiles
  dsimp only
  have hr := inv_updateProjectilesAux now delta s.projectiles
    ⟨h1, h2, h3, h4, h5, h6, h7, h8, h9⟩ h8
  obtain ⟨g1, g2, g3, g4, g5, g6, g7, _, g9⟩ := hr.2
  exact ⟨g1, g2, g3, g4, g5, g6, g7, hr.1, g9⟩

/-- Scheduling the gate timer leaves every invariant field untouched. -/
lemma inv_openGateAnimation (now : ℚ) {s : Game} (hs : Inv s) :
    Inv (openGateAnimation now s) := by
  unfold openGateAnimation
  cases s.exitGate
  · exact hs
  · exact hs

/-- `tryOpenGate` only touches the gate flag, the inventory and the
pending timers, none of which the invariant mentions. -/
lemma inv_tryOpenGate (now : ℚ) {s : Game} (hs : Inv s) : Inv (tryOpenGate now s) := by
  unfold tryOpenGate
  split_ifs
  · exact inv_openGateAnimation now hs
  · exact hs
  · exact inv_openGateAnimation now hs
  · exact hs
  · exact hs

/-- `loadLevel` resets the registries; the fresh rosters carry only the
constant nonnegative damage values. -/
lemma inv_loadLevel (n : ℕ) {s : Game} (hs : Inv s) : Inv (loadLevel n s) := by
  obtain ⟨h1, h2, h3, h4, h5, h6, h7, h8, h9⟩ := hs
  unfold loadLevel clearLevel
  dsimp only
  refine ⟨h1, h2, h3, h4, h5, h6, h7, ?_, ?_⟩
  · intro p hp
    exact absurd hp (List.not_mem_nil p)
  · exact levelEnemies_damage n

/-- `nextLevel` preserves the invariant (victory only flips the state
flag; otherwise the new level is loaded). -/
lemma inv_nextLevel {s : Game} (hs : Inv s) : Inv (nextLevel s) := by
  unfold nextLevel
  dsimp only
  split_ifs
  · unfold victoryState
    obtain ⟨h1, h2, h3, h4, h5, h6, h7, h8, h9⟩ := hs
    exact ⟨h1, h2, h3, h4, h5, h6, fun hst => absurd hst (by simp), h8, h9⟩
  · exact inv_loadLevel _ hs

/-- The frame completion check preserves the invariant. -/
lemma inv_checkLevelCompletion {s : Game} (hs : Inv s) : Inv (checkLevelCompletion s) := by
  unfold checkLevelCompletion
  cases s.exitGate
  · exact hs
  · dsimp only
    split_ifs
    · exact inv_nextLevel hs
    · exact hs
    · exact hs

/-- Firing a pending timer preserves the invariant. -/
lemma inv_fireTimer (t : Timer) {s : Game} (hs : Inv s) : Inv (fireTimer t s) := by
  unfold fireTimer runTimerAction
  cases t.action
  exact inv_nextLevel hs

/-- A single platform check only moves the player. -/
lemma inv_checkPlatformCollision (p : Platform) {s : Game} (hs : Inv s) :
    Inv (checkPlatformCollision p s).1 := by
  cases p with
  | ground => exact hs
  | arena =>
    unfold checkPlatformCollision
    dsimp only
    split_ifs <;> exact hs
  | box c w hgt d =>
    unfold checkPlatformCollision
    dsimp only
    split_ifs <;> exact hs

/-- The platform scan preserves the invariant. -/
lemma inv_checkPlatforms (ps : List Platform) {s : Game} (hs : Inv s) :
    Inv (checkPlatforms ps s) := by
  induction ps generalizing s with
  | nil => exact hs
  | cons p ps ih =>
    unfold checkPlatforms
    dsimp only
    split_ifs
    · exact inv_checkPlatformCollision p hs
    · exact ih (inv_checkPlatformCollision p hs)

/-- The freshly started game satisfies the invariant. -/
lemma inv_startGame : Inv (startGame constructorGame) := by
  unfold startGame
  apply inv_loadLevel
  unfold resetPlayer constructorGame
  refine ⟨by norm_num, by norm_num, by norm_num, ⟨30, by norm_num⟩, by norm_num,
    by norm_num, fun _ => by norm_num, ?_, ?_⟩
  · intro p hp
    exact absurd hp (List.not_mem_nil p)
  · intro e he
    exact absurd he (List.not_mem_nil e)

/-- Restarting the game restores full resources and reloads level 1. -/
lemma inv_restartGame {s : Game} (hs : Inv s) : Inv (restartGame s) := by
  obtain ⟨h1, h2, h3, h4, h5, h6, h7, h8, h9⟩ := hs
  unfold restartGame resetPlayer
  apply inv_loadLevel
  refine ⟨?_, le_refl _, h3, ⟨30, ?_⟩, le_refl _, h6, fun _ => h6, h8, h9⟩
  · show (0 : ℚ) ≤ s.maxAmmo
    rw [h3]
    norm_num
  · show s.maxAmmo = ((30 : ℤ) : ℚ)
    rw [h3]
    norm_num

/-- Every reachable state satisfies the invariant. -/
lemma reach_Inv {s : Game} (h : Reach s) : Inv s := by
  induction h with
  | init => exact inv_startGame
  | stepRestart _ ih => exact inv_restartGame ih
  | stepDamage a _ _ ha ih => exact inv_takeDamage ha ih
  | stepCollect c _ _ _ ih => exact inv_collectItem c ih
  | stepShoot now dir _ _ ih => exact inv_shoot now dir ih
  | stepEnemyShoot now e dir _ _ hmem ih => exact inv_enemyShoot now e dir hmem ih
  | stepBossIce now bpos dirs _ _ ih => exact inv_bossIceAttack now bpos dirs ih
  | stepSlam _ _ ih => exact inv_bossGroundSlam ih
  | stepProjectiles now delta _ _ ih => exact inv_updateProjectiles now delta ih
  | stepInteract now _ _ ih => exact inv_tryOpenGate now ih
  | stepCompletion _ _ ih => exact inv_checkLevelCompletion ih
  | stepPlatforms _ _ ih => exact inv_checkPlatforms _ ih
  | stepTimer t _ _ ih => exact inv_fireTimer t ih

/-- C2 (amended): in every reachable state, `0 ≤ ammo ≤ maxAmmo` and
`health ≤ maxHealth`, and in every PLAYING state `0 < health`; a lethal
`takeDamage` can push health below 0, but that same call leaves PLAYING
for the terminal GAME_OVER state (after which the game loop stops), so
`0 ≤ health` holds whenever the game is still playing. -/
theorem C2_resource_invariant (s : Game) (h : Reach s) :
    0 ≤ s.ammo ∧ s.ammo ≤ s.maxAmmo ∧ s.health ≤ s.maxHealth ∧
      (s.state = GState.playing → 0 < s.health) := by
  obtain ⟨h1, h2, _, _, h5, _, h7, _, _⟩ := reach_Inv h
  exact ⟨h1, h2, h5, h7⟩

/-- Witness for C2: the freshly started game is reachable and satisfies
the resource bounds. -/
theorem C2_resource_invariant_witness :
    0 ≤ (startGame constructorGame).ammo ∧
    (startGame constructorGame).ammo ≤ (startGame constructorGame).maxAmmo ∧
    (startGame constructorGame).health ≤ (startGame constructorGame).maxHealth ∧
    ((startGame constructorGame).state = GState.playing →
      0 < (startGame constructorGame).health) :=
  C2_resource_invariant (startGame constructorGame) Reach.init

end MiaCroft
